import Mathlib

/-!
Shallow embedding of the FileGo/octopusenergyapi Go client library
(octopusapi.go, structs.go) together with proofs of the specification
claims about it.

Modelling conventions:
* Go functions returning `(T, error)` become Lean functions returning
  `T × Option String` (the `Option String` is the error, `none` = nil),
  or `Except String T` where the Go function returns a nil/zero value
  exactly when the error is non-nil.
* The injected `*http.Client` transport becomes an explicit function
  `fetch : String → HTTPResult β`: for a request URL it yields either a
  transport error, or a response with an HTTP status code and a body.
  The body is represented post-JSON-decoding as `Except String β`
  (`.error` = `json.Decode` failure with its message), since the claims
  never inspect raw JSON text.
* The unbounded `for` loop of `ListProducts` is embedded step-indexed
  with an explicit fuel parameter; `none` means the loop performs more
  than `fuel` iterations.  Machine integers (`int`) become `Int`
  (no arithmetic near overflow occurs anywhere in the library).
-/

/-- Result of one HTTP GET as seen by the library: either the transport
fails with an error message, or a response arrives carrying a status
code and a (already JSON-decoded, or failed-to-decode) body. -/
inductive HTTPResult (β : Type) : Type
  | transportError (msg : String)
  | response (status : Nat) (body : Except String β)

/-- `Client` from structs.go: holds the base URL (credential already
embedded).  The `httpClient` field is modelled as the explicit `fetch`
argument of each operation. -/
structure Client where
  URL : String
deriving Repr, DecidableEq

/-- `(c *Client) do(path, v)` from octopusapi.go: GET `c.URL + "/" + path`,
fail on transport error, fail on status != 200, fail on JSON decode
failure, with the exact wrapping messages of the source. -/
def doRequest {β : Type} (fetch : String → HTTPResult β) (base path : String) :
    Except String β :=
  match fetch (base ++ "/" ++ path) with
  | .transportError m => .error ("http get error: " ++ m)
  | .response st body =>
    if st ≠ 200 then .error ("http error - code " ++ toString st ++ " received")
    else
      match body with
      | .error m => .error ("unable to unmarshal json: " ++ m)
      | .ok v => .ok v

/-- `Product` from structs.go.  Fields whose Go types have no direct
Lean counterpart and which no claim inspects (`time.Time` availability
stamps, `float32` tariff tables, links) are omitted; the pagination
claims treat products as opaque records. -/
structure Product where
  Code : String := ""
  Direction : String := ""
  FullName : String := ""
  DisplayName : String := ""
  Description : String := ""
  IsVariable : Bool := false
  IsGreen : Bool := false
  IsTracker : Bool := false
  IsPrepay : Bool := false
  IsBusiness : Bool := false
  IsRestricted : Bool := false
  Term : Int := 0
deriving Repr, DecidableEq, Inhabited

/-- `productJSON` from structs.go: the `count`/`next`/`previous`/`results`
pagination envelope for products. -/
structure productJSON where
  count : Int := 0
  next : String := ""
  previous : String := ""
  results : List Product := []
deriving Repr, DecidableEq, Inhabited

/-- `(c *Client) listProductsPage(URL)` from octopusapi.go: fetch one
page through `c.do`, returning `(results, next, error)`; on failure the
results are nil and the next link empty, and the error is wrapped as
`"error retrieving: %v"`. -/
def listProductsPage (fetch : String → HTTPResult productJSON) (c : Client)
    (URL : String) : List Product × String × Option String :=
  match doRequest fetch c.URL URL with
  | .error e => ([], "", some ("error retrieving: " ++ e))
  | .ok d => (d.results, d.next, none)

/-- Body of the `for` loop of `(c *Client) ListProducts()` from
octopusapi.go, step-indexed by fuel: fetch the page at `URL`, on error
return nil products and the wrapped error (discarding `acc`), otherwise
append the page results to `acc` and continue with the `next` link,
stopping when it is empty.  `none` = the loop runs longer than `fuel`. -/
def listProductsLoop (fetch : String → HTTPResult productJSON) (c : Client) :
    Nat → String → List Product → Option (List Product × Option String)
  | 0, _, _ => none
  | fuel + 1, URL, acc =>
    match listProductsPage fetch c URL with
    | (_, _, some e) => some ([], some ("error retrieving products page: " ++ e))
    | (ps, next, none) =>
      if next = "" then some (acc ++ ps, none)
      else listProductsLoop fetch c fuel next (acc ++ ps)

/-- `(c *Client) ListProducts()` from octopusapi.go: walk the product
pages starting from `c.URL + "/products/"`, accumulating results. -/
def ListProducts (fetch : String → HTTPResult productJSON) (c : Client)
    (fuel : Nat) : Option (List Product × Option String) :=
  listProductsLoop fetch c fuel (c.URL ++ "/products/") []

/-- Decidable statement that the "next" chain starting at `URL` reaches a
successfully fetched page with an empty `next` link within `n` fetches
(every fetch along the way succeeding). -/
def nextEmptiesWithin (fetch : String → HTTPResult productJSON) (c : Client) :
    Nat → String → Bool
  | 0, _ => false
  | n + 1, URL =>
    match listProductsPage fetch c URL with
    | (_, _, some _) => false
    | (_, next, none) => next = "" || nextEmptiesWithin fetch c n next

/-- `GridSupplyPoint` from structs.go. -/
structure GridSupplyPoint where
  ID : Int
  Name : String
  Operator : String
  PhoneNumber : String
  ParticipantID : String
  GSPGroupID : String
deriving Repr, DecidableEq

/-- Go zero value `GridSupplyPoint{}`. -/
def zeroGSP : GridSupplyPoint := ⟨0, "", "", "", "", ""⟩

/-- `GSPs` from structs.go: the static table of the 14 Grid Supply
Points, in source order. -/
def GSPs : List GridSupplyPoint := [
  ⟨10, "Eastern England", "UK Power Networks", "0800 029 4285", "EELC", "_A"⟩,
  ⟨11, "East Midlands", "Western Power Distribution", "0800 096 3080", "EMEB", "_B"⟩,
  ⟨12, "London", "UK Power Networks", "0800 029 4285", "LOND", "_C"⟩,
  ⟨13, "Merseyside and Northern Wales", "SP Energy Networks", "0330 10 10 444", "MANW", "_D"⟩,
  ⟨14, "West Midlands", "Western Power Distribution", "0800 096 3080", "MIDE", "_E"⟩,
  ⟨15, "North Eastern England", "Northern Powergrid", "0800 011 3332", "NEEB", "_F"⟩,
  ⟨16, "North Western England", "Electricity North West", "0800 048 1820", "NORW", "_G"⟩,
  ⟨17, "Northern Scotland", "Scottish & Southern Electricity Networks", "0800 048 3516", "HYDE", "_P"⟩,
  ⟨18, "Southern Scotland", "SP Energy Networks", "0330 10 10 444", "SPOW", "_N"⟩,
  ⟨19, "South Eastern England", "UK Power Networks", "0800 029 4285", "SEEB", "_J"⟩,
  ⟨20, "Southern England", "Scottish & Southern Electricity Networks", "0800 048 3516", "SOUT", "_H"⟩,
  ⟨21, "Southern Wales", "Western Power Distribution", "0800 096 3080", "SWAE", "_K"⟩,
  ⟨22, "South Western England", "Western Power Distribution", "0800 096 3080", "SWEB", "_L"⟩,
  ⟨23, "Yorkshire", "Northern Powergrid", "0800 011 3332", "YELG", "_M"⟩]

/-- Decoded body shape of `GetMeterPoint` (the anonymous struct with
json tags `gsp`, `mpan`, `profile_class`). -/
structure meterPointJSON where
  gsp : String := ""
  mpan : String := ""
  profileClass : Int := 0
deriving Repr, DecidableEq, Inhabited

/-- `MeterPoint` from structs.go. -/
structure MeterPoint where
  GSP : GridSupplyPoint
  MPAN : String
  ProfileClass : Int
deriving Repr, DecidableEq

/-- Go zero value `MeterPoint{}`. -/
def zeroMeterPoint : MeterPoint := ⟨zeroGSP, "", 0⟩

/-- `(c *Client) GetMeterPoint(mpan)` from octopusapi.go: GET the
meter-point path through `c.do`, copy `mpan`/`profile_class` into the
result, and resolve `gsp` against the static `GSPs` table by exact
group-id match (first matching row, as the source's `for` loop does);
no match returns the zero `MeterPoint` and the
"no grid supply point found" error. -/
def GetMeterPoint (fetch : String → HTTPResult meterPointJSON) (c : Client)
    (mpan : String) : MeterPoint × Option String :=
  match doRequest fetch c.URL ("electricity-meter-points/" ++ mpan ++ "/") with
  | .error e => (zeroMeterPoint, some ("error retrieving meterpoint: " ++ e))
  | .ok d =>
    match GSPs.find? (fun g => g.GSPGroupID == d.gsp) with
    | some g => (⟨g, d.mpan, d.profileClass⟩, none)
    | none => (zeroMeterPoint, some "no grid supply point found")

/-- Character class `[A-Za-z]` of the postcode regular expression. -/
def reAlpha (c : Char) : Bool :=
  (('A' ≤ c && c ≤ 'Z') || ('a' ≤ c && c ≤ 'z'))

/-- Character class `[0-9]` of the postcode regular expression. -/
def reDigit (c : Char) : Bool :=
  ('0' ≤ c && c ≤ '9')

/-- Character class `[A-Ha-hJ-Yj-y]` of the postcode regular
expression (second letter of an outward code; excludes I, i, Z, z). -/
def reSecond (c : Char) : Bool :=
  (('A' ≤ c && c ≤ 'H') || ('a' ≤ c && c ≤ 'h') ||
   ('J' ≤ c && c ≤ 'Y') || ('j' ≤ c && c ≤ 'y'))

/-- Character class `[AZa-z]` of the postcode regular expression: as
written in the source it contains only 'A', 'Z' and 'a'-'z' (not the
full upper-case range). -/
def reAZaz (c : Char) : Bool :=
  (c == 'A' || c == 'Z' || ('a' ≤ c && c ≤ 'z'))

/-- Inward part `[0-9][A-Za-z]{2}` of the postcode regular expression,
on its three characters in order. -/
def inwardOK (d l1 l2 : Char) : Bool :=
  reDigit d && reAlpha l1 && reAlpha l2

/-- Two-character outward codes of the postcode regular expression:
`[A-Za-z][0-9]{1,2}` with one digit. -/
def outward2 (a b : Char) : Bool :=
  reAlpha a && reDigit b

/-- Three-character outward codes of the postcode regular expression:
`[A-Za-z][0-9]{2}`, `[A-Za-z][A-Ha-hJ-Yj-y][0-9]`, `[AZa-z][0-9][A-Za-z]`
or `[A-Za-z][A-Ha-hJ-Yj-y][A-Za-z]` (the last is the fourth alternative
with its optional digit absent), on the three characters in order. -/
def outward3 (a b c : Char) : Bool :=
  (reAlpha a && reDigit b && reDigit c) ||
  (reAlpha a && reSecond b && reDigit c) ||
  (reAZaz a && reDigit b && reAlpha c) ||
  (reAlpha a && reSecond b && reAlpha c)

/-- Four-character outward codes of the postcode regular expression:
`[A-Za-z][A-Ha-hJ-Yj-y][0-9]{2}` or `[A-Za-z][A-Ha-hJ-Yj-y][0-9][A-Za-z]`,
on the four characters in order. -/
def outward4 (a b c d : Char) : Bool :=
  (reAlpha a && reSecond b && reDigit c && reDigit d) ||
  (reAlpha a && reSecond b && reDigit c && reAlpha d)

/-- Does some outward code end exactly where the given reversed
character list begins?  `rest` is the input reversed, starting just
before the space: an outward code of 2, 3 or 4 characters must sit
there, with arbitrary characters deeper in the list (the regular
expression's second alternative carries no `^` anchor, so any amount of
junk may precede the match). -/
def outwardRevOK (rest : List Char) : Bool :=
  match rest with
  | r0 :: r1 :: tail2 =>
    (outward2 r1 r0) ||
    (match tail2 with
     | r2 :: _ => outward3 r2 r1 r0
     | [] => false) ||
    (match tail2 with
     | r2 :: r3 :: _ => outward4 r3 r2 r1 r0
     | _ => false)
  | _ => false

/-- Does the second alternative of the postcode regular expression,
`(outward) [0-9][A-Za-z]{2}$`, match a suffix of the input?  `rl` is the
whole input reversed, so the inward code is its first three characters,
then the space, then the reversed outward code. -/
def revTailMatch (rl : List Char) : Bool :=
  match rl with
  | c1 :: c2 :: c3 :: c4 :: rest =>
    c4 == ' ' && inwardOK c3 c2 c1 && outwardRevOK rest
  | _ => false

/-- Does the first alternative of the postcode regular expression,
`^[Gg][Ii][Rr] 0[Aa]{2}` (no `$` anchor), match at the start of the
input?  Any characters may follow. -/
def girStartMatch (l : List Char) : Bool :=
  match l with
  | g :: i :: r :: sp :: z :: a1 :: a2 :: _ =>
    (g == 'G' || g == 'g') && (i == 'I' || i == 'i') &&
    (r == 'R' || r == 'r') && sp == ' ' && z == '0' &&
    (a1 == 'A' || a1 == 'a') && (a2 == 'A' || a2 == 'a')
  | _ => false

/-- `checkPostcode(postcode)` from octopusapi.go: unanchored-search
semantics of Go's `regexp.MatchString` applied to the source pattern
`^([Gg][Ii][Rr] 0[Aa]{2})|((([A-Za-z][0-9]{1,2})|(([A-Za-z][A-Ha-hJ-Yj-y][0-9]{1,2})|(([AZa-z][0-9][A-Za-z])|([A-Za-z][A-Ha-hJ-Yj-y][0-9]?[A-Za-z])))) [0-9][A-Za-z]{2})$`.
Alternation binds loosest, so the pattern matches somewhere in the input
iff the GIR alternative matches at position 0 (its `^` anchor) or the
outward-space-inward alternative matches a suffix ending at the end of
the input (its `$` anchor). -/
def checkPostcode (postcode : String) : Bool :=
  girStartMatch postcode.data || revTailMatch postcode.data.reverse

/-- Element of the `results` array decoded by `GetGridSupplyPoint`
(the anonymous struct with json tag `group_id`). -/
structure gspResult where
  groupID : String := ""
deriving Repr, DecidableEq, Inhabited

/-- Decoded body shape of `GetGridSupplyPoint`: the pagination envelope
whose `results` carry group ids. -/
structure gspJSON where
  count : Int := 0
  next : String := ""
  previous : String := ""
  results : List gspResult := []
deriving Repr, DecidableEq, Inhabited

/-- Go's `strings.ReplaceAll(postcode, " ", "")` as `GetGridSupplyPoint`
uses it: replacing every single-space occurrence by the empty string
removes exactly the space characters. -/
def removeSpaces (s : String) : String :=
  String.mk (s.data.filter (fun c => c ≠ ' '))

/-- `(c *Client) GetGridSupplyPoint(postcode)` from octopusapi.go:
validate the postcode (rejecting with the "invalid postcode" error
before any request), strip spaces, GET the industry lookup path through
`c.do`, insist on exactly one result (`len(data.Results) != 1` yields
the "more than one supply point received" error), and resolve the
returned group id against the static `GSPs` table; an unmatched id is
the "unknown grid supply point" error.  The source reads
`data.Results[0]` under the length-1 guard; `headD` is that access. -/
def GetGridSupplyPoint (fetch : String → HTTPResult gspJSON) (c : Client)
    (postcode : String) : GridSupplyPoint × Option String :=
  if checkPostcode postcode then
    match doRequest fetch c.URL
        ("industry/grid-supply-points/?postcode=" ++ removeSpaces postcode) with
    | .error e => (zeroGSP, some ("error retrieving grid supply point: " ++ e))
    | .ok d =>
      if d.results.length ≠ 1 then
        (zeroGSP, some "more than one supply point received")
      else
        match GSPs.find? (fun g => g.GSPGroupID == (d.results.headD ⟨""⟩).groupID) with
        | some g => (g, none)
        | none => (zeroGSP, some "unknown grid supply point")
  else (zeroGSP, some ("invalid postcode " ++ postcode))

/-- Wall-clock instant in UTC, modelling Go's `time.Time` at the
millisecond precision the library's format string uses. -/
structure GoTime where
  year : Nat := 1
  month : Nat := 1
  day : Nat := 1
  hour : Nat := 0
  minute : Nat := 0
  second : Nat := 0
  millis : Nat := 0
deriving Repr, DecidableEq, Inhabited

/-- Go's `time.Time.IsZero`: the zero instant is January 1, year 1,
00:00:00 UTC. -/
def GoTime.isZero (t : GoTime) : Bool :=
  t == { }

/-- Left-pads the decimal rendering of `n` with zeros to width `w`,
as Go's reference-time formatting does for each component. -/
def padNat (w n : Nat) : String :=
  let s := toString n
  String.mk (List.replicate (w - s.length) '0') ++ s

/-- Go's `t.Format(iso8601)` for the layout constant
`"2006-01-02T15:04:05.000+0000"` from structs.go, on a UTC instant:
zero-padded date and time, millisecond fraction, literal "+0000"
offset. -/
def formatISO8601 (t : GoTime) : String :=
  padNat 4 t.year ++ "-" ++ padNat 2 t.month ++ "-" ++ padNat 2 t.day ++ "T" ++
  padNat 2 t.hour ++ ":" ++ padNat 2 t.minute ++ ":" ++ padNat 2 t.second ++
  "." ++ padNat 3 t.millis ++ "+0000"

/-- `ConsumptionOption` from structs.go: the optional filter of
`GetMeterConsumption`. -/
structure ConsumptionOption where
  From : GoTime := { }
  To : GoTime := { }
  PageSize : Int := 0
  OrderBy : String := ""
  GroupBy : String := ""
deriving Repr, DecidableEq, Inhabited

/-- Path part of the `GetMeterConsumption` request URL. -/
def consumptionPath (mpan serialNo : String) : String :=
  "electricity-meter-points/" ++ mpan ++ "/meters/" ++ serialNo ++ "/consumption/"

/-- Query parameters added to the `GetMeterConsumption` request URL by
octopusapi.go, as key-value pairs in the source's `q.Add` order: nothing
when `options` is the zero `ConsumptionOption{}`, otherwise one pair per
set field (`page_size` via `strconv.Itoa`, `order_by`, `group_by`,
`period_from` and `period_to` via the iso8601 layout).  Go's
`url.Values.Encode` then renders these pairs sorted by key and
percent-escaped; the claims concern which parameters are carried and
their (unescaped) values, so the pair list is the faithful stopping
point. -/
def consumptionQuery (options : ConsumptionOption) : List (String × String) :=
  if options = { } then []
  else
    (if options.PageSize ≠ 0 then [("page_size", toString options.PageSize)] else []) ++
    (if options.OrderBy ≠ "" then [("order_by", options.OrderBy)] else []) ++
    (if options.GroupBy ≠ "" then [("group_by", options.GroupBy)] else []) ++
    (if ¬options.From.isZero then [("period_from", formatISO8601 options.From)] else []) ++
    (if ¬options.To.isZero then [("period_to", formatISO8601 options.To)] else [])

/-- Go's `strings.TrimSpace` character test (`unicode.IsSpace`) on the
Latin-1 range: space, tab, newline, vertical tab, form feed, carriage
return, next line, no-break space. -/
def goIsSpace (c : Char) : Bool :=
  c == ' ' || c == '\t' || c == '\n' || c == '\x0b' || c == '\x0c' ||
  c == '\r' || c == '\x85' || c == '\xa0'

/-- Go's `strings.TrimSpace`: drop leading and trailing whitespace. -/
def goTrimSpace (s : String) : String :=
  String.mk (((s.data.dropWhile goIsSpace).reverse.dropWhile goIsSpace).reverse)

/-- Parsed URL, modelling the fields of Go's `url.URL` that the library
touches: scheme, userinfo (`hasUser` = `User != nil`; the library only
ever installs `url.UserPassword(username, "")`, whose password is set
but empty), host and path. -/
structure GoURL where
  scheme : String := ""
  hasUser : Bool := false
  username : String := ""
  password : String := ""
  host : String := ""
  path : String := ""
deriving Repr, DecidableEq, Inhabited

/-- Is the character an ASCII hexadecimal digit? -/
def isHexDigitChar (c : Char) : Bool :=
  ('0' ≤ c && c ≤ '9') || ('a' ≤ c && c ≤ 'f') || ('A' ≤ c && c ≤ 'F')

/-- Does every '%' in the list begin a valid two-hex-digit escape?
Go's `url.Parse` rejects the input with an "invalid URL escape" error
otherwise. -/
def validEscapes : List Char → Bool
  | [] => true
  | '%' :: a :: b :: rest => isHexDigitChar a && isHexDigitChar b && validEscapes rest
  | '%' :: _ => false
  | _ :: rest => validEscapes rest

/-- Splits a character list at the first occurrence of "://", returning
the part before and the part after, or `none` when absent. -/
def splitSchemeSep : List Char → Option (List Char × List Char)
  | [] => none
  | ':' :: '/' :: '/' :: rest => some ([], rest)
  | c :: rest =>
    match splitSchemeSep rest with
    | some (a, b) => some (c :: a, b)
    | none => none

/-- Is the list a syntactically valid URL scheme (`[a-zA-Z][a-zA-Z0-9+-.]*`)? -/
def validScheme : List Char → Bool
  | [] => false
  | c :: rest =>
    c.isAlpha && rest.all (fun d => d.isAlphanum || d == '+' || d == '-' || d == '.')

/-- Go's `url.Parse`, modelled on the subset of inputs the library and
its fixtures exercise: an input with an invalid percent escape fails
("invalid URL escape"); `scheme://rest` splits `rest` into host (up to
the first '/') and path, with an empty scheme failing ("missing
protocol scheme") and a malformed scheme failing as Go does when the
colon ends up in the first path segment; an input without "://" parses
as a bare path.  Userinfo, query and fragment components never occur in
the library's inputs and are not parsed. -/
def urlParse (s : String) : Except String GoURL :=
  if ¬validEscapes s.data then .error "invalid URL escape"
  else
    match splitSchemeSep s.data with
    | none => .ok { path := s }
    | some (sch, rest) =>
      if sch.isEmpty then .error "missing protocol scheme"
      else if ¬validScheme sch then
        .error "first path segment in URL cannot contain colon"
      else
        .ok { scheme := String.mk (sch.map Char.toLower),
              host := String.mk (rest.takeWhile (fun c => c ≠ '/')),
              path := String.mk (rest.dropWhile (fun c => c ≠ '/')) }

/-- Go's `url.URL.String()` on the modelled fields: `scheme:` when a
scheme is present, then `//`, the rendered userinfo
(`username:password@`, the colon present because `url.UserPassword`
marks the password as set) and the host whenever any of scheme, host or
userinfo is present, then the path. -/
def urlString (u : GoURL) : String :=
  (if u.scheme ≠ "" then u.scheme ++ ":" else "") ++
  (if u.scheme ≠ "" || u.host ≠ "" || u.hasUser then
    "//" ++ (if u.hasUser then u.username ++ ":" ++ u.password ++ "@" else "") ++ u.host
   else "") ++
  u.path

/-- `urlAddUsername(URL, username)` from octopusapi.go: parse the URL
(wrapping a parse failure as "error parsing url: %v"), install
`url.UserPassword(username, "")` as its userinfo and render it back. -/
def urlAddUsername (URL username : String) : Except String String :=
  match urlParse URL with
  | .error e => .error ("error parsing url: " ++ e)
  | .ok u =>
    .ok (urlString { u with hasUser := true, username := username, password := "" })

/-- `baseURL` constant from structs.go. -/
def baseURL : String := "https://api.octopus.energy/v1"

/-- Body of `NewClient(APIkey, httpClient)` from octopusapi.go with the
base URL abstracted as a parameter (the source reads the package
constant `baseURL`; the check and the flow do not depend on it): trim
the key, reject an empty result ("API key should not be empty"), embed
the key into the base URL via `urlAddUsername` (wrapping its failure as
"unable to add username to url: %v") and return the client. -/
def newClientWith (base APIkey : String) : Except String Client :=
  let key := goTrimSpace APIkey
  if key.length = 0 then .error "API key should not be empty"
  else
    match urlAddUsername base key with
    | .error e => .error ("unable to add username to url: " ++ e)
    | .ok u => .ok ⟨u⟩

/-- `NewClient(APIkey, httpClient)` from octopusapi.go. -/
def NewClient (APIkey : String) : Except String Client :=
  newClientWith baseURL APIkey

/-- C7: the postcode validator accepts "SW1A 1AA", "sW1A 1aA", "E20 2ST"
and "e20 2st" (matching case-insensitively) and rejects
"this is not a postcode"; for every input the validator rejects,
`GetGridSupplyPoint` fails with the "invalid postcode" error without
issuing any request (the result does not depend on the transport). -/
theorem C7_postcode_validation :
    checkPostcode "SW1A 1AA" = true ∧ checkPostcode "sW1A 1aA" = true ∧
    checkPostcode "E20 2ST" = true ∧ checkPostcode "e20 2st" = true ∧
    checkPostcode "this is not a postcode" = false ∧
    ∀ (fetch : String → HTTPResult gspJSON) (c : Client) (p : String),
      checkPostcode p = false →
      GetGridSupplyPoint fetch c p = (zeroGSP, some ("invalid postcode " ++ p)) := by
  refine ⟨by decide, by decide, by decide, by decide, by decide, ?_⟩
  intro fetch c p hp
  simp [GetGridSupplyPoint, hp]

/-- Witness for C7 at the rejected input "not a code!", with an
arbitrary transport. -/
theorem C7_postcode_validation_witness :
    GetGridSupplyPoint (fun _ => HTTPResult.transportError "unreachable") ⟨"x"⟩
      "not a code!" = (zeroGSP, some ("invalid postcode " ++ "not a code!")) :=
  C7_postcode_validation.2.2.2.2.2 _ _ _ (by decide)

/-- C8: a credential that is empty after trimming whitespace makes the
constructor fail with the "API key should not be empty" error,
whatever the base URL (stated over `newClientWith`, the constructor
body with the base URL abstracted, and over `NewClient` itself). -/
theorem C8_empty_credential :
    ∀ (base APIkey : String), goTrimSpace APIkey = "" →
      newClientWith base APIkey = .error "API key should not be empty" ∧
      NewClient APIkey = .error "API key should not be empty" := by
  intro base key h
  constructor <;> simp [newClientWith, NewClient, h]

/-- Witness for C8 at a whitespace-only credential. -/
theorem C8_empty_credential_witness :
    newClientWith "http://www.google.com/" " \t " =
      .error "API key should not be empty" ∧
    NewClient " \t " = .error "API key should not be empty" :=
  C8_empty_credential "http://www.google.com/" " \t " (by decide)

/-- C9: embedding "user" into "http://www.google.com/" yields exactly
"http://user:@www.google.com/" (userinfo = username with empty set
password); every base URL that fails to parse makes `urlAddUsername`
fail, and makes construction with a non-empty credential fail with the
wrapped error. -/
theorem C9_credential_embedding :
    urlAddUsername "http://www.google.com/" "user" =
      .ok "http://user:@www.google.com/" ∧
    (∀ (URL username e : String), urlParse URL = .error e →
      urlAddUsername URL username = .error ("error parsing url: " ++ e)) ∧
    (∀ (base APIkey e : String), goTrimSpace APIkey ≠ "" →
      urlParse base = .error e →
      newClientWith base APIkey =
        .error ("unable to add username to url: " ++ ("error parsing url: " ++ e))) := by
  refine ⟨rfl, ?_, ?_⟩
  · intro URL username e h
    simp [urlAddUsername, h]
  · intro base key e hk h
    have hlen : (goTrimSpace key).length ≠ 0 := by
      intro h0
      apply hk
      rcases hs : goTrimSpace key with ⟨l⟩
      rw [hs] at h0
      have : l = [] := List.length_eq_zero.mp h0
      rw [this]
    simp [newClientWith, hlen, urlAddUsername, h]

/-- Witness for C9 at the repository's own invalid-URL fixture
"10928301####$$$%%" (a '%' not starting a two-hex-digit escape). -/
theorem C9_credential_embedding_witness :
    urlAddUsername "10928301####$$$%%" "user" =
      .error ("error parsing url: " ++ "invalid URL escape") ∧
    newClientWith "10928301####$$$%%" "testapikey" =
      .error ("unable to add username to url: " ++
        ("error parsing url: " ++ "invalid URL escape")) :=
  ⟨C9_credential_embedding.2.1 _ "user" _ rfl,
   C9_credential_embedding.2.2 _ "testapikey" _ (by decide) rfl⟩

/-- C6: when all five optional filter fields are set,
`GetMeterConsumption` carries the query parameters `page_size`,
`order_by`, `group_by`, `period_from` and `period_to`, the period values
rendered by the iso8601 layout (millisecond precision, literal "+0000"
suffix); and each of the five parameters is carried exactly when its
filter field is set. -/
theorem C6_consumption_query_params :
    (∀ (o : ConsumptionOption), o.PageSize ≠ 0 → o.OrderBy ≠ "" →
      o.GroupBy ≠ "" → o.From.isZero = false → o.To.isZero = false →
      consumptionQuery o =
        [("page_size", toString o.PageSize), ("order_by", o.OrderBy),
         ("group_by", o.GroupBy), ("period_from", formatISO8601 o.From),
         ("period_to", formatISO8601 o.To)]) ∧
    (∀ (o : ConsumptionOption),
      (("page_size" ∈ (consumptionQuery o).map Prod.fst) ↔ o.PageSize ≠ 0) ∧
      (("order_by" ∈ (consumptionQuery o).map Prod.fst) ↔ o.OrderBy ≠ "") ∧
      (("group_by" ∈ (consumptionQuery o).map Prod.fst) ↔ o.GroupBy ≠ "") ∧
      (("period_from" ∈ (consumptionQuery o).map Prod.fst) ↔ o.From.isZero = false) ∧
      (("period_to" ∈ (consumptionQuery o).map Prod.fst) ↔ o.To.isZero = false)) := by
  constructor
  · intro o hp hob hgb hf ht
    have hz : ¬o = { } := by
      intro h
      rw [h] at hp
      exact hp rfl
    simp [consumptionQuery, hz, hp, hob, hgb, hf, ht]
  · intro o
    by_cases hz : o = { }
    · subst hz
      refine ⟨?_, ?_, ?_, ?_, ?_⟩ <;> simp [consumptionQuery] <;> decide
    · by_cases hp : o.PageSize = 0 <;> by_cases hob : o.OrderBy = "" <;>
        by_cases hgb : o.GroupBy = "" <;> by_cases hf : o.From.isZero <;>
        by_cases ht : o.To.isZero <;>
        refine ⟨?_, ?_, ?_, ?_, ?_⟩ <;>
        simp [consumptionQuery, hz, hp, hob, hgb, hf, ht]

/-- Witness for C6 at the spec's fixture filter: from/to set (with a
nonzero millisecond component to exhibit the precision), page size 10,
order by "asc", group by "hour". -/
theorem C6_consumption_query_params_witness :
    consumptionQuery
      { From := ⟨2020, 5, 1, 12, 30, 45, 123⟩, To := ⟨2020, 5, 2, 0, 0, 0, 0⟩,
        PageSize := 10, OrderBy := "asc", GroupBy := "hour" } =
      [("page_size", "10"), ("order_by", "asc"), ("group_by", "hour"),
       ("period_from", "2020-05-01T12:30:45.123+0000"),
       ("period_to", "2020-05-02T00:00:00.000+0000")] := by
  have h := C6_consumption_query_params.1
    { From := ⟨2020, 5, 1, 12, 30, 45, 123⟩, To := ⟨2020, 5, 2, 0, 0, 0, 0⟩,
      PageSize := 10, OrderBy := "asc", GroupBy := "hour" }
    (by decide) (by decide) (by decide) (by decide) (by decide)
  simpa using h

/-- C4: on a successfully decoded meter-point response, `GetMeterPoint`
returns the decoded `mpan` and `profile_class` unchanged together with
the static-table row whose group id equals the decoded `gsp` field
("_A" resolves to table row 0); when no row matches it returns the zero
`MeterPoint` and the "no grid supply point found" error. -/
theorem C4_meterpoint_resolution :
    ∀ (fetch : String → HTTPResult meterPointJSON) (c : Client)
      (mpan : String) (d : meterPointJSON),
      doRequest fetch c.URL ("electricity-meter-points/" ++ mpan ++ "/") = .ok d →
      ((∀ g, GSPs.find? (fun x => x.GSPGroupID == d.gsp) = some g →
          GetMeterPoint fetch c mpan = (⟨g, d.mpan, d.profileClass⟩, none)) ∧
       (GSPs.find? (fun x => x.GSPGroupID == d.gsp) = none →
          GetMeterPoint fetch c mpan = (zeroMeterPoint, some "no grid supply point found")) ∧
       (d.gsp = "_A" →
          GetMeterPoint fetch c mpan = (⟨GSPs.headD zeroGSP, d.mpan, d.profileClass⟩, none))) := by
  intro fetch c mpan d hreq
  refine ⟨?_, ?_, ?_⟩
  · intro g hfind
    simp [GetMeterPoint, hreq, hfind]
  · intro hfind
    simp [GetMeterPoint, hreq, hfind]
  · intro hgsp
    have hfind : GSPs.find? (fun x => x.GSPGroupID == d.gsp) = some (GSPs.headD zeroGSP) := by
      rw [hgsp]
      decide
    simp [GetMeterPoint, hreq, hfind]

/-- Transport fixture for the C4 witness: serves a meter point with
group id "_A" for MPAN 11, and one with an unknown group id for MPAN 22. -/
def fetchMeterPoint : String → HTTPResult meterPointJSON := fun u =>
  if u = "x/electricity-meter-points/11/" then
    .response 200 (.ok ⟨"_A", "11", 1⟩)
  else if u = "x/electricity-meter-points/22/" then
    .response 200 (.ok ⟨"_Z", "22", 1⟩)
  else .transportError "no such fixture"

/-- Witness for C4: the "_A" fixture resolves to table row 0 with MPAN
and profile class unchanged; the "_Z" fixture fails with the
no-match error and the zero MeterPoint. -/
theorem C4_meterpoint_resolution_witness :
    GetMeterPoint fetchMeterPoint ⟨"x"⟩ "11" =
      (⟨⟨10, "Eastern England", "UK Power Networks", "0800 029 4285", "EELC", "_A"⟩,
        "11", 1⟩, none) ∧
    GetMeterPoint fetchMeterPoint ⟨"x"⟩ "22" =
      (zeroMeterPoint, some "no grid supply point found") := by
  constructor
  · have h := (C4_meterpoint_resolution fetchMeterPoint ⟨"x"⟩ "11" ⟨"_A", "11", 1⟩ rfl).2.2 rfl
    simpa using h
  · exact (C4_meterpoint_resolution fetchMeterPoint ⟨"x"⟩ "22" ⟨"_Z", "22", 1⟩ rfl).2.1 (by decide)

/-- C5: with a validated postcode and a successfully decoded response,
`GetGridSupplyPoint` returns the "more than one supply point received"
error and the zero `GridSupplyPoint` whenever the results list does not
have length exactly one (zero results included); with exactly one
result whose group id matches a static-table row it returns that row,
and a group id of "_A" yields table row 0. -/
theorem C5_gsp_single_result :
    ∀ (fetch : String → HTTPResult gspJSON) (c : Client) (postcode : String)
      (d : gspJSON),
      checkPostcode postcode = true →
      doRequest fetch c.URL
        ("industry/grid-supply-points/?postcode=" ++ removeSpaces postcode) = .ok d →
      ((d.results.length ≠ 1 →
          GetGridSupplyPoint fetch c postcode =
            (zeroGSP, some "more than one supply point received")) ∧
       (∀ r g, d.results = [r] →
          GSPs.find? (fun x => x.GSPGroupID == r.groupID) = some g →
          GetGridSupplyPoint fetch c postcode = (g, none)) ∧
       (∀ r, d.results = [r] → r.groupID = "_A" →
          GetGridSupplyPoint fetch c postcode = (GSPs.headD zeroGSP, none))) := by
  intro fetch c postcode d hpc hreq
  refine ⟨?_, ?_, ?_⟩
  · intro hlen
    simp [GetGridSupplyPoint, hpc, hreq, hlen]
  · intro r g hres hfind
    simp [GetGridSupplyPoint, hpc, hreq, hres, hfind]
  · intro r hres hid
    have hfind : GSPs.find? (fun x => x.GSPGroupID == r.groupID) = some (GSPs.headD zeroGSP) := by
      rw [hid]
      decide
    simp [GetGridSupplyPoint, hpc, hreq, hres, hfind]

/-- Transport fixture for the C5 witness: for the cleaned postcode
"SW1A1AA" serves one result "_A"; for "E202ST" serves two results; for
"GIR0AA" serves no results. -/
def fetchGSP : String → HTTPResult gspJSON := fun u =>
  if u = "x/industry/grid-supply-points/?postcode=SW1A1AA" then
    .response 200 (.ok ⟨1, "", "", [⟨"_A"⟩]⟩)
  else if u = "x/industry/grid-supply-points/?postcode=E202ST" then
    .response 200 (.ok ⟨2, "", "", [⟨"_A"⟩, ⟨"_B"⟩]⟩)
  else if u = "x/industry/grid-supply-points/?postcode=GIR0AA" then
    .response 200 (.ok ⟨0, "", "", []⟩)
  else .transportError "no such fixture"

/-- Witness for C5: "SW1A 1AA" against the single-result fixture gives
table row 0; a two-result fixture and a zero-result fixture both give
the "more than one supply point received" error with the zero row. -/
theorem C5_gsp_single_result_witness :
    GetGridSupplyPoint fetchGSP ⟨"x"⟩ "SW1A 1AA" =
      (⟨10, "Eastern England", "UK Power Networks", "0800 029 4285", "EELC", "_A"⟩, none) ∧
    GetGridSupplyPoint fetchGSP ⟨"x"⟩ "E20 2ST" =
      (zeroGSP, some "more than one supply point received") ∧
    GetGridSupplyPoint fetchGSP ⟨"x"⟩ "GIR 0AA" =
      (zeroGSP, some "more than one supply point received") := by
  refine ⟨?_, ?_, ?_⟩
  · have h := (C5_gsp_single_result fetchGSP ⟨"x"⟩ "SW1A 1AA" ⟨1, "", "", [⟨"_A"⟩]⟩
      (by decide) rfl).2.2 ⟨"_A"⟩ rfl rfl
    simpa using h
  · exact (C5_gsp_single_result fetchGSP ⟨"x"⟩ "E20 2ST" ⟨2, "", "", [⟨"_A"⟩, ⟨"_B"⟩]⟩
      (by decide) rfl).1 (by decide)
  · exact (C5_gsp_single_result fetchGSP ⟨"x"⟩ "GIR 0AA" ⟨0, "", "", []⟩
      (by decide) rfl).1 (by decide)

/-- Walking the loop of `ListProducts` over a chain of successfully
served pages appends the page batches to the accumulator in fetch
order: page `i` is served at `urls i`, its next link is `urls (i+1)`
except on the last page where it is empty, and every followed link is
nonempty. -/
theorem listProductsLoop_chain (fetch : String → HTTPResult productJSON) (c : Client) :
    ∀ (pages : List (List Product)) (urls : Nat → String) (fuel : Nat)
      (acc : List Product),
      pages ≠ [] →
      (∀ i (h : i < pages.length),
        listProductsPage fetch c (urls i) =
          (pages.get ⟨i, h⟩, if i + 1 = pages.length then "" else urls (i + 1), none)) →
      (∀ i (_h : i < pages.length), i + 1 < pages.length → urls (i + 1) ≠ "") →
      pages.length ≤ fuel →
      listProductsLoop fetch c fuel (urls 0) acc = some (acc ++ pages.flatten, none) := by
  intro pages
  induction pages with
  | nil => intro urls fuel acc hne _ _ _; exact absurd rfl hne
  | cons p rest ih =>
    intro urls fuel acc _ hpage hnz hfuel
    match fuel, hfuel with
    | f + 1, hfuel =>
      have h0 : listProductsPage fetch c (urls 0) =
          (p, if 0 + 1 = (p :: rest).length then "" else urls 1, none) :=
        hpage 0 (Nat.succ_pos _)
      by_cases hrest : rest = []
      · subst hrest
        have h0' : listProductsPage fetch c (urls 0) = (p, "", none) := by
          simpa using h0
        simp [listProductsLoop, h0']
      · have hlen1 : rest.length ≠ 0 := fun h => hrest (List.length_eq_zero.mp h)
        have hcond : ¬(0 + 1 = (p :: rest).length) := by
          simp only [List.length_cons]
          omega
        have h0' : listProductsPage fetch c (urls 0) = (p, urls 1, none) := by
          rw [h0, if_neg hcond]
        have hu1 : urls 1 ≠ "" := by
          refine hnz 0 (Nat.succ_pos _) ?_
          simp [List.length_cons]
          exact Nat.pos_of_ne_zero hlen1
        have step : listProductsLoop fetch c (f + 1) (urls 0) acc =
            listProductsLoop fetch c f (urls 1) (acc ++ p) := by
          simp [listProductsLoop, h0', hu1]
        rw [step]
        have hrec := ih (fun i => urls (i + 1)) f (acc ++ p) hrest
          (fun i h => by
            have h2 := hpage (i + 1) (Nat.succ_lt_succ h)
            simpa [List.length_cons, Nat.succ_lt_succ_iff] using h2)
          (fun i h hlt => hnz (i + 1) (Nat.succ_lt_succ h) (Nat.succ_lt_succ hlt))
          (by
            have : rest.length + 1 ≤ f + 1 := by
              simpa [List.length_cons] using hfuel
            exact Nat.le_of_succ_le_succ this)
        rw [hrec]
        simp

/-- C1: for every chain of product pages served by the transport
(page `i` at `urls i`, next link pointing at `urls (i+1)`, empty on the
last page, no followed link empty), `ListProducts` returns exactly the
concatenation of the page result batches in fetch order, with results
inside each page in their original order and nothing re-sorted. -/
theorem C1_listProducts_concatenation :
    ∀ (fetch : String → HTTPResult productJSON) (c : Client)
      (pages : List (List Product)) (urls : Nat → String) (fuel : Nat),
      pages ≠ [] →
      urls 0 = c.URL ++ "/products/" →
      (∀ i (h : i < pages.length),
        listProductsPage fetch c (urls i) =
          (pages.get ⟨i, h⟩, if i + 1 = pages.length then "" else urls (i + 1), none)) →
      (∀ i (_h : i < pages.length), i + 1 < pages.length → urls (i + 1) ≠ "") →
      pages.length ≤ fuel →
      ListProducts fetch c fuel = some (pages.flatten, none) := by
  intro fetch c pages urls fuel hne h0 hpage hnz hfuel
  have h := listProductsLoop_chain fetch c pages urls fuel [] hne hpage hnz hfuel
  rw [h0] at h
  simpa [ListProducts] using h

/-- Fixture of 100 distinct products for the C1 witness. -/
def prod100 : List Product := (List.range 100).map (fun j => { Code := toString j })

/-- Split of the 100-product fixture into pages of 34, 33 and 33. -/
def pages100 : List (List Product) :=
  [prod100.take 34, (prod100.drop 34).take 33, prod100.drop 67]

/-- Page URLs of the C1 witness chain: the products listing URL the
loop starts from, then the next links "page1" and "page2". -/
def urls100 : Nat → String := fun i =>
  if i = 0 then "x/products/" else "page" ++ toString i

/-- Transport fixture serving the three pages of `pages100` (the
client's `do` helper prepends `c.URL ++ "/"` to each requested URL). -/
def fetch100 : String → HTTPResult productJSON := fun u =>
  if u = "x/x/products/" then .response 200 (.ok ⟨100, "page1", "", prod100.take 34⟩)
  else if u = "x/page1" then
    .response 200 (.ok ⟨100, "page2", "page1", (prod100.drop 34).take 33⟩)
  else if u = "x/page2" then .response 200 (.ok ⟨100, "", "page1", prod100.drop 67⟩)
  else .transportError "no such page"

/-- Witness for C1: the 100-entry fixture split 34/33/33 yields exactly
the 100 products in original order. -/
theorem C1_listProducts_concatenation_witness :
    ListProducts fetch100 ⟨"x"⟩ 3 = some (pages100.flatten, none) ∧
    pages100.flatten = prod100 ∧ prod100.length = 100 :=
  ⟨C1_listProducts_concatenation fetch100 ⟨"x"⟩ pages100 urls100 3 (by decide) rfl
     (by decide) (by decide) (by decide),
   by decide, by decide⟩

/-- C2: the pagination walk of `ListProducts` terminates exactly on an
empty "next" link and has no page cap: whenever the "next" chain from a
URL empties within `n` successful fetches, the loop finishes within `n`
iterations (for every accumulator); and there is a transport whose
"next" link is never empty for which the loop finishes within no number
of iterations at all (the fuel-indexed loop yields `none` for every
fuel, i.e. the unbounded source loop does not terminate). -/
theorem C2_pagination_termination :
    (∀ (fetch : String → HTTPResult productJSON) (c : Client) (n : Nat)
       (URL : String) (acc : List Product),
       nextEmptiesWithin fetch c n URL = true →
       ∃ r, listProductsLoop fetch c n URL acc = some r) ∧
    (∃ fetch : String → HTTPResult productJSON,
       (∀ (c : Client) (URL : String), (listProductsPage fetch c URL).2.1 ≠ "") ∧
       (∀ (c : Client) (fuel : Nat) (URL : String) (acc : List Product),
         listProductsLoop fetch c fuel URL acc = none)) := by
  constructor
  · intro fetch c n
    induction n with
    | zero => intro URL acc h; exact absurd h (by simp [nextEmptiesWithin])
    | succ m ih =>
      intro URL acc h
      rcases hpage : listProductsPage fetch c URL with ⟨ps, rest⟩
      rcases rest with ⟨next, err⟩
      cases err with
      | some e =>
        rw [nextEmptiesWithin, hpage] at h
        exact absurd h (by simp)
      | none =>
        rw [nextEmptiesWithin, hpage] at h
        simp only [Bool.or_eq_true, decide_eq_true_eq] at h
        by_cases hnext : next = ""
        · refine ⟨(acc ++ ps, none), ?_⟩
          simp [listProductsLoop, hpage, hnext]
        · have h2 : nextEmptiesWithin fetch c m next = true := by
            rcases h with h | h
            · exact absurd h hnext
            · exact h
          rcases ih next (acc ++ ps) h2 with ⟨r, hr⟩
          refine ⟨r, ?_⟩
          simp only [listProductsLoop, hpage]
          rw [if_neg hnext]
          exact hr
  · refine ⟨fun _ => .response 200 (.ok ⟨0, "loop", "", []⟩), ?_, ?_⟩
    · intro c URL
      simp [listProductsPage, doRequest]
    · intro c fuel
      induction fuel with
      | zero => intro URL acc; rfl
      | succ m ih =>
        intro URL acc
        have hpage : listProductsPage (fun _ => .response 200 (.ok ⟨0, "loop", "", []⟩))
            c URL = ([], "loop", none) := by
          simp [listProductsPage, doRequest]
        simp only [listProductsLoop, hpage]
        rw [if_neg (by decide : ¬("loop" : String) = "")]
        exact ih "loop" (acc ++ [])

/-- Transport fixture for the C2 witness: a single page with an empty
next link, served at URL "one" (requested as "x/one"). -/
def fetchOnePage : String → HTTPResult productJSON := fun u =>
  if u = "x/one" then .response 200 (.ok ⟨1, "", "", [{ Code := "p" }]⟩)
  else .transportError "no such page"

/-- Witness for C2: the chain from "one" empties within one fetch, so
the loop finishes within one iteration. -/
theorem C2_pagination_termination_witness :
    ∃ r, listProductsLoop fetchOnePage ⟨"x"⟩ 1 "one" [] = some r :=
  C2_pagination_termination.1 fetchOnePage ⟨"x"⟩ 1 "one" [] (by decide)

/-- Walking the loop of `ListProducts` over `k` successfully served
pages followed by a page whose fetch fails returns nil products and the
wrapped error, whatever was accumulated so far. -/
theorem listProductsLoop_failure (fetch : String → HTTPResult productJSON) (c : Client) :
    ∀ (k : Nat) (urls : Nat → String) (pages : Nat → List Product) (fuel : Nat)
      (acc : List Product) (e : String),
      (∀ i, i < k → listProductsPage fetch c (urls i) = (pages i, urls (i + 1), none)) →
      (∀ i, i < k → urls (i + 1) ≠ "") →
      (listProductsPage fetch c (urls k)).2.2 = some e →
      k < fuel →
      listProductsLoop fetch c fuel (urls 0) acc =
        some ([], some ("error retrieving products page: " ++ e)) := by
  intro k
  induction k with
  | zero =>
    intro urls pages fuel acc e _ _ herr hfuel
    match fuel, hfuel with
    | f + 1, _ =>
      rcases hpage : listProductsPage fetch c (urls 0) with ⟨ps, next, err⟩
      rw [hpage] at herr
      simp only at herr
      subst herr
      simp [listProductsLoop, hpage]
  | succ m ih =>
    intro urls pages fuel acc e hok hnz herr hfuel
    match fuel, hfuel with
    | f + 1, hfuel =>
      have h0 := hok 0 (Nat.succ_pos m)
      have hu1 : urls 1 ≠ "" := hnz 0 (Nat.succ_pos m)
      have step : listProductsLoop fetch c (f + 1) (urls 0) acc =
          listProductsLoop fetch c f (urls 1) (acc ++ pages 0) := by
        simp [listProductsLoop, h0, hu1]
      rw [step]
      exact ih (fun i => urls (i + 1)) (fun i => pages (i + 1)) f (acc ++ pages 0) e
        (fun i hi => hok (i + 1) (Nat.succ_lt_succ hi))
        (fun i hi => hnz (i + 1) (Nat.succ_lt_succ hi))
        herr (Nat.lt_of_succ_lt_succ hfuel)

/-- C3: every page-fetch failure mode (transport failure, non-200 HTTP
status, JSON decode failure) makes `listProductsPage` fail, and a
failure anywhere in the `ListProducts` walk makes the whole call return
nil products together with the wrapped error, discarding every
previously accumulated page (stated for every accumulator at the loop
level, and for the full call). -/
theorem C3_pagination_failure_discards :
    (∀ (fetch : String → HTTPResult productJSON) (c : Client) (URL m : String),
       fetch (c.URL ++ "/" ++ URL) = .transportError m →
       listProductsPage fetch c URL =
         ([], "", some ("error retrieving: " ++ ("http get error: " ++ m)))) ∧
    (∀ (fetch : String → HTTPResult productJSON) (c : Client) (URL : String)
       (st : Nat) (body : Except String productJSON),
       fetch (c.URL ++ "/" ++ URL) = .response st body → st ≠ 200 →
       listProductsPage fetch c URL =
         ([], "", some ("error retrieving: " ++
           ("http error - code " ++ toString st ++ " received")))) ∧
    (∀ (fetch : String → HTTPResult productJSON) (c : Client) (URL m : String),
       fetch (c.URL ++ "/" ++ URL) = .response 200 (.error m) →
       listProductsPage fetch c URL =
         ([], "", some ("error retrieving: " ++ ("unable to unmarshal json: " ++ m)))) ∧
    (∀ (fetch : String → HTTPResult productJSON) (c : Client) (urls : Nat → String)
       (pages : Nat → List Product) (k fuel : Nat) (acc : List Product) (e : String),
       (∀ i, i < k → listProductsPage fetch c (urls i) = (pages i, urls (i + 1), none)) →
       (∀ i, i < k → urls (i + 1) ≠ "") →
       (listProductsPage fetch c (urls k)).2.2 = some e →
       k < fuel →
       listProductsLoop fetch c fuel (urls 0) acc =
         some ([], some ("error retrieving products page: " ++ e))) ∧
    (∀ (fetch : String → HTTPResult productJSON) (c : Client) (urls : Nat → String)
       (pages : Nat → List Product) (k fuel : Nat) (e : String),
       urls 0 = c.URL ++ "/products/" →
       (∀ i, i < k → listProductsPage fetch c (urls i) = (pages i, urls (i + 1), none)) →
       (∀ i, i < k → urls (i + 1) ≠ "") →
       (listProductsPage fetch c (urls k)).2.2 = some e →
       k < fuel →
       ListProducts fetch c fuel =
         some ([], some ("error retrieving products page: " ++ e))) := by
  refine ⟨?_, ?_, ?_, ?_, ?_⟩
  · intro fetch c URL m h
    simp [listProductsPage, doRequest, h]
  · intro fetch c URL st body h hst
    simp [listProductsPage, doRequest, h, hst]
  · intro fetch c URL m h
    simp [listProductsPage, doRequest, h]
  · intro fetch c urls pages k fuel acc e hok hnz herr hfuel
    exact listProductsLoop_failure fetch c k urls pages fuel acc e hok hnz herr hfuel
  · intro fetch c urls pages k fuel e h0 hok hnz herr hfuel
    have h := listProductsLoop_failure fetch c k urls pages fuel [] e hok hnz herr hfuel
    rw [h0] at h
    simpa [ListProducts] using h

/-- Transport fixture for the C3 witness: a first page served
successfully with next link "page1", whose fetch then fails with HTTP
status 500. -/
def fetchFailPage : String → HTTPResult productJSON := fun u =>
  if u = "x/x/products/" then .response 200 (.ok ⟨2, "page1", "", [{ Code := "a" }]⟩)
  else if u = "x/page1" then .response 500 (.ok ⟨0, "", "", []⟩)
  else .transportError "no such page"

/-- Page URLs of the C3 witness chain. -/
def urlsFail : Nat → String := fun i =>
  if i = 0 then "x/products/" else "page" ++ toString i

/-- Witness for C3: with one accumulated page and a 500 on the second
fetch, the whole call returns nil products and only the wrapped
error. -/
theorem C3_pagination_failure_discards_witness :
    ListProducts fetchFailPage ⟨"x"⟩ 3 =
      some ([], some ("error retrieving products page: " ++
        "error retrieving: http error - code 500 received")) :=
  C3_pagination_failure_discards.2.2.2.2 fetchFailPage ⟨"x"⟩ urlsFail
    (fun _ => [{ Code := "a" }]) 1 3 "error retrieving: http error - code 500 received"
    rfl (by decide) (by decide) (by decide) (by decide)

/-- Is the character list exactly one outward code, a space and an
inward code — the shape the second alternative of the postcode regular
expression matches (6, 7 or 8 characters)? -/
def postcodeTailChars : List Char → Bool
  | [a, b, sp, d, e, f] => sp == ' ' && outward2 a b && inwardOK d e f
  | [a, b, c, sp, d, e, f] => sp == ' ' && outward3 a b c && inwardOK d e f
  | [a, b, c, x, sp, d, e, f] => sp == ' ' && outward4 a b c x && inwardOK d e f
  | _ => false

/-- Is the string exactly an outward-space-inward postcode form? -/
def postcodeTail (w : String) : Bool :=
  postcodeTailChars w.data

/-- Appending junk below a successful reversed tail match cannot break
it: the second regular-expression alternative carries no `^` anchor, so
only the characters down to the outward code are inspected. -/
theorem revTailMatch_extend (w extra : List Char) (h : postcodeTailChars w = true) :
    revTailMatch (w.reverse ++ extra) = true := by
  unfold postcodeTailChars at h
  split at h
  · simp only [Bool.and_eq_true, beq_iff_eq] at h
    obtain ⟨⟨h1, h2⟩, h3⟩ := h
    subst h1
    simp [revTailMatch, outwardRevOK, h2, h3]
  · simp only [Bool.and_eq_true, beq_iff_eq] at h
    obtain ⟨⟨h1, h2⟩, h3⟩ := h
    subst h1
    simp [revTailMatch, outwardRevOK, h2, h3]
  · simp only [Bool.and_eq_true, beq_iff_eq] at h
    obtain ⟨⟨h1, h2⟩, h3⟩ := h
    subst h1
    simp [revTailMatch, outwardRevOK, h2, h3]
  · exact absurd h (by simp)

/-- C10: because the `^` anchor of the postcode regular expression
binds only to its GIR alternative and the `$` anchor only to its
outward-space-inward alternative, `checkPostcode` accepts every string
that merely ends in an outward-space-inward postcode form — in
particular "this is not a postcode E20 2ST" — and `GetGridSupplyPoint`
then proceeds past validation and issues the lookup request (with a
single "_A" result it returns table row 0 rather than the
invalid-postcode error). -/
theorem C10_regex_anchor_leak :
    (∀ (s w : String), postcodeTail w = true → checkPostcode (s ++ w) = true) ∧
    checkPostcode "this is not a postcode E20 2ST" = true ∧
    (∀ (fetch : String → HTTPResult gspJSON) (c : Client) (d : gspJSON),
      doRequest fetch c.URL ("industry/grid-supply-points/?postcode=" ++
        removeSpaces "this is not a postcode E20 2ST") = .ok d →
      d.results = [⟨"_A"⟩] →
      GetGridSupplyPoint fetch c "this is not a postcode E20 2ST" =
        (GSPs.headD zeroGSP, none)) := by
  refine ⟨?_, by decide, ?_⟩
  · intro s w h
    have hdata : (s ++ w).data = s.data ++ w.data := rfl
    unfold checkPostcode
    rw [hdata, List.reverse_append]
    have hrev := revTailMatch_extend w.data s.data.reverse h
    simp [hrev]
  · intro fetch c d hreq hres
    have hpc : checkPostcode "this is not a postcode E20 2ST" = true := by decide
    have hfind : GSPs.find? (fun g => g.GSPGroupID == ("_A" : String)) =
        some (GSPs.headD zeroGSP) := by decide
    simp [GetGridSupplyPoint, hpc, hreq, hres, hfind]

/-- Transport fixture for the C10 witness: serves one "_A" result for
the space-stripped non-postcode lookup string. -/
def fetchLeak : String → HTTPResult gspJSON := fun u =>
  if u = "x/industry/grid-supply-points/?postcode=thisisnotapostcodeE202ST" then
    .response 200 (.ok ⟨1, "", "", [⟨"_A"⟩]⟩)
  else .transportError "no such fixture"

/-- Witness for C10: junk followed by "E20 2ST" passes validation, and
the lookup on "this is not a postcode E20 2ST" reaches the transport
and returns table row 0. -/
theorem C10_regex_anchor_leak_witness :
    checkPostcode ("this is not a postcode " ++ "E20 2ST") = true ∧
    GetGridSupplyPoint fetchLeak ⟨"x"⟩ "this is not a postcode E20 2ST" =
      (GSPs.headD zeroGSP, none) :=
  ⟨C10_regex_anchor_leak.1 "this is not a postcode " "E20 2ST" (by decide),
   C10_regex_anchor_leak.2.2 fetchLeak ⟨"x"⟩ ⟨1, "", "", [⟨"_A"⟩]⟩ rfl rfl⟩
